import Mathlib

/-!
Shallow embedding of the goong-geocoder-js query controller
(`src/lib/index.js`).  Each event handler of the widget is transcribed as
a straight-line list of primitive `Action`s in source order; the state of
the controller (input string, freshness flag, last confirmed selection,
typeahead suggestion store, indicator visibility, rendered message,
marker) is an explicit record, and `applyAction` gives the semantics of
each primitive.  Network requests, map commands and event emissions are
actions that leave the state unchanged; `emitsOf` / `requestsOf` project
the observable traces.
-/

namespace GoongGeocoder

/-- One autocomplete candidate as returned by the search endpoint
(`predictions` entries; the controller reads `place_id` and serializes the
whole object with `JSON.stringify`). -/
structure Prediction where
  place_id : String
  description : String
deriving DecidableEq, Repr

/-- Body of a successful search response (`response.body`), of which the
controller reads `predictions`. -/
structure SearchResponse where
  predictions : List Prediction
deriving DecidableEq, Repr

/-- Body of a successful place-detail response: the controller reads
`result.geometry.location.lat` / `.lng`. -/
structure PlaceDetail where
  lat : ℚ
  lng : ℚ
deriving DecidableEq, Repr

/-- A rejection value handed to a `.catch` handler.  The source only ever
inspects `error && error.status === 0`; `none` stands for a falsy error
value and `status = none` for an absent `status` field. -/
structure ErrObj where
  status : Option Int
deriving DecidableEq, Repr

/-- `JSON.stringify` on a candidate object: a concrete injective
serialization of its fields, mirroring the JSON text the source compares
with `!==`. -/
def stringify (p : Prediction) : String :=
  "\x7b\"place_id\":\"" ++ p.place_id ++ "\",\"description\":\"" ++ p.description ++ "\"\x7d"

/-- The `options.flyTo` value: `false`, `true`, or a custom fly-options
object (possibly overriding the zoom).  `off` is the only falsy value. -/
inductive FlyToOption where
  | off
  | on
  | custom (zoom : Option ℚ)
deriving DecidableEq, Repr

/-- The option bag fields the transcribed handlers consult (defaults as in
the prototype's `options`). -/
structure Options where
  zoom : ℚ := 16
  flyTo : FlyToOption := FlyToOption.on
  trackProximity : Bool := true
  minLength : Nat := 2
  limit : Nat := 5
  radius : ℚ := 3000
  marker : Bool := true
  clearAndBlurOnEsc : Bool := false
  clearOnBlur : Bool := false
  proximity : Option (ℚ × ℚ) := none

/-- The configuration object passed to `autoCompleteService.search`:
`input`, `radius`, and an optional `location` (the proximity pair that the
source renders as a `"lat,lng"` string). -/
structure SearchConfig where
  input : String
  radius : ℚ
  location : Option (ℚ × ℚ)
deriving DecidableEq, Repr

/-- State of the `suggestions` typeahead the controller manipulates: the
current data list and the selected candidate. -/
structure TypeaheadState where
  data : List Prediction
  selected : Option Prediction
deriving DecidableEq, Repr

/-- Which message `_renderMessage` last displayed: the error banner
(`_renderError`) or the no-results message (`_renderNoResults`). -/
inductive Message where
  | errorBanner
  | noResults
deriving DecidableEq, Repr

/-- Observable state of the controller and its suggestion store. -/
structure GeocoderState where
  inputString : String
  inputValue : String
  fresh : Bool
  lastSelected : Option String
  typeahead : TypeaheadState
  loadingDisplayed : Bool
  clearDisplayed : Bool
  renderedMessage : Option Message
  hasMarker : Bool
deriving DecidableEq, Repr

/-- Events emitted on the widget's event emitter. -/
inductive Event where
  | loading (query : String)
  | results (res : SearchResponse)
  | result (detail : PlaceDetail)
  | errorEvt (err : Option ErrObj)
  | clearEvt
deriving DecidableEq, Repr

/-- Primitive steps of the transcribed handlers, in source order: state
mutations, DOM indicator toggles, message rendering, marker handling,
event emissions, outgoing network requests and map commands. -/
inductive Action where
  | setLoadingDisplay (b : Bool)
  | setClearDisplay (b : Bool)
  | setFresh (b : Bool)
  | setInputString (q : String)
  | setInputValue (v : String)
  | setSelected (sel : Option Prediction)
  | typeaheadUpdate (l : List Prediction)
  | typeaheadClear
  | renderMsg (m : Message)
  | setLastSelected (v : Option String)
  | removeMarker
  | placeMarker (lng lat : ℚ)
  | emit (e : Event)
  | searchRequest (cfg : SearchConfig)
  | detailRequest (placeid : String)
  | flyToCmd (center : ℚ × ℚ) (zoom : ℚ)
  | focusInput
  | setCursorStart
deriving DecidableEq, Repr

/-- Effect of one primitive on the observable state; emissions, requests
and map/input commands do not touch it. -/
def applyAction (s : GeocoderState) : Action → GeocoderState
  | Action.setLoadingDisplay b => { s with loadingDisplayed := b }
  | Action.setClearDisplay b => { s with clearDisplayed := b }
  | Action.setFresh b => { s with fresh := b }
  | Action.setInputString q => { s with inputString := q }
  | Action.setInputValue v => { s with inputValue := v }
  | Action.setSelected sel => { s with typeahead := { s.typeahead with selected := sel } }
  | Action.typeaheadUpdate l => { s with typeahead := { s.typeahead with data := l } }
  | Action.typeaheadClear => { s with typeahead := { s.typeahead with data := [] } }
  | Action.renderMsg m => { s with renderedMessage := some m }
  | Action.setLastSelected v => { s with lastSelected := v }
  | Action.removeMarker => { s with hasMarker := false }
  | Action.placeMarker _ _ => { s with hasMarker := true }
  | Action.emit _ => s
  | Action.searchRequest _ => s
  | Action.detailRequest _ => s
  | Action.flyToCmd _ _ => s
  | Action.focusInput => s
  | Action.setCursorStart => s

/-- Run a handler's action list over a state. -/
def applyActions (s : GeocoderState) (acts : List Action) : GeocoderState :=
  acts.foldl applyAction s

/-- The events a handler emits, in order. -/
def emitsOf (acts : List Action) : List Event :=
  acts.filterMap fun a =>
    match a with
    | Action.emit e => some e
    | _ => none

/-- The network requests a handler issues, in order. -/
def requestsOf (acts : List Action) : List Action :=
  acts.filter fun a =>
    match a with
    | Action.searchRequest _ => true
    | Action.detailRequest _ => true
    | _ => false

/-- `_renderMessage(msg)`: clears the typeahead list and selection, then
displays `msg` via `renderError`. -/
def renderMessageActions (m : Message) : List Action :=
  [Action.typeaheadUpdate [], Action.setSelected none, Action.typeaheadClear,
   Action.renderMsg m]

/-- Success continuation of `_geocode`'s search request
(`request.then`, src/lib/index.js:368-386), reading the freshness flag at
response-arrival time. -/
def searchSuccessActions (fresh : Bool) (res : SearchResponse) : List Action :=
  [Action.setLoadingDisplay false]
  ++ (if fresh then [Action.setFresh false] else [])
  ++ (if res.predictions.isEmpty then
        [Action.setClearDisplay false, Action.setSelected none]
        ++ renderMessageActions Message.noResults
        ++ [Action.emit (Event.results res)]
      else
        [Action.setClearDisplay true, Action.emit (Event.results res),
         Action.typeaheadUpdate res.predictions])

/-- `error && error.status === 0`: the client-side cancellation test of
`_geocode`'s catch handler. -/
def errIsCancellation : Option ErrObj → Bool
  | some e => e.status == some 0
  | none => false

/-- Failure continuation of `_geocode`'s search request
(`request.catch`, src/lib/index.js:387-397). -/
def searchFailureActions (err : Option ErrObj) : List Action :=
  if errIsCancellation err then []
  else
    [Action.setLoadingDisplay false, Action.setClearDisplay false,
     Action.setSelected none]
    ++ renderMessageActions Message.errorBanner
    ++ [Action.emit (Event.results { predictions := [] }),
        Action.emit (Event.errorEvt err)]

/-- The search config `_geocode` builds (src/lib/index.js:360-366):
`location` is attached only when proximity tracking is on, a map is bound
and both proximity coordinates are truthy (nonzero). -/
def geocodeConfig (opts : Options) (hasMap : Bool) (searchInput : String) : SearchConfig :=
  { input := searchInput
    radius := opts.radius
    location :=
      match opts.proximity with
      | some (la, ln) =>
        if opts.trackProximity && hasMap && !(la == 0) && !(ln == 0) then some (la, ln)
        else none
      | none => none }

/-- Synchronous part of `_geocode` (src/lib/index.js:351-367): show the
spinner, emit `loading`, record the input string, send the search. -/
def geocodeStartActions (opts : Options) (hasMap : Bool) (searchInput : String) : List Action :=
  [Action.setLoadingDisplay true, Action.emit (Event.loading searchInput),
   Action.setInputString searchInput,
   Action.searchRequest (geocodeConfig opts hasMap searchInput)]

/-- Zoom of the fly-to command: the default `options.zoom` unless a custom
fly-to object overrides it (`extend({}, defaultFlyOptions, options.flyTo)`). -/
def effectiveFlyZoom (opts : Options) : ℚ :=
  match opts.flyTo with
  | FlyToOption.custom (some z) => z
  | _ => opts.zoom

/-- `_handleMarker(detail)` (src/lib/index.js:735-750): bail out without a
map, otherwise replace any old marker with one at the detail's
coordinates. -/
def handleMarkerActions (hasMap : Bool) (d : PlaceDetail) : List Action :=
  if hasMap then [Action.removeMarker, Action.placeMarker d.lng d.lat] else []

/-- Success continuation of `_onChange`'s place-detail request
(src/lib/index.js:306-340): hide the clear button, fly the map to
`[lng, lat]` when bound, place the marker when enabled and goongjs is
present, restore focus and cursor, record the confirmed selection, emit
`result`. -/
def detailSuccessActions (opts : Options) (hasMap hasGoongjs : Bool)
    (sel : Prediction) (d : PlaceDetail) : List Action :=
  [Action.setClearDisplay false]
  ++ (if hasMap then [Action.flyToCmd (d.lng, d.lat) (effectiveFlyZoom opts)] else [])
  ++ (if opts.marker && hasGoongjs then handleMarkerActions hasMap d else [])
  ++ [Action.focusInput, Action.setCursorStart,
      Action.setLastSelected (some (stringify sel)),
      Action.emit (Event.result d)]

/-- Failure continuation of `_onChange`'s place-detail request
(src/lib/index.js:342-345): emit `error` and nothing else. -/
def detailFailureActions (err : Option ErrObj) : List Action :=
  [Action.emit (Event.errorEvt err)]

/-- Synchronous part of `_onChange` (src/lib/index.js:298-305): with a
selected candidate whose serialization differs from the last confirmed
one, bail out when fly-to is disabled, otherwise send the place-detail
request. -/
def onChangeActions (opts : Options) (s : GeocoderState) : List Action :=
  match s.typeahead.selected with
  | none => []
  | some sel =>
    if some (stringify sel) = s.lastSelected then []
    else if opts.flyTo = FlyToOption.off then []
    else [Action.detailRequest sel.place_id]

/-- `_clear(ev)` (src/lib/index.js:408-426): empty the input, drop the
selection, clear the typeahead, re-run `_onChange` (a no-op, the selection
having just been dropped), hide the clear button, remove the marker, reset
the confirmed selection, emit `clear`, mark the session fresh. -/
def clearActions (opts : Options) (s : GeocoderState) : List Action :=
  let pre := [Action.setInputValue "", Action.setSelected none, Action.typeaheadClear]
  pre ++ onChangeActions opts (applyActions s pre)
  ++ [Action.setClearDisplay false, Action.removeMarker,
      Action.setLastSelected none, Action.emit Event.clearEvt,
      Action.setFresh true]

/-- A `keydown` event as `_onKeyDown` inspects it. -/
structure KeyEvent where
  keyCode : Nat
  metaKey : Bool
deriving DecidableEq, Repr

/-- The key codes `_onKeyDown` treats as navigation: TAB, ESC, LEFT,
RIGHT, ENTER, UP, DOWN (src/lib/index.js:277). -/
def navKeyCodes : List Nat := [9, 27, 37, 39, 13, 38, 40]

/-- The search input `_onKeyDown` dispatches, if any
(src/lib/index.js:255-282): ESC with `clearAndBlurOnEsc` clears and
blurs; an empty value clears; meta or navigation keys bail out; otherwise
a value of at least `minLength` characters is geocoded. -/
def onKeyDownSearch (opts : Options) (value : String) (e : KeyEvent) : Option String :=
  if e.keyCode == 27 && opts.clearAndBlurOnEsc then none
  else if value == "" then none
  else if e.metaKey || navKeyCodes.contains e.keyCode then none
  else if opts.minLength ≤ value.length then some value
  else none

/-- Modelled from the spec: `trimmedLength(text)` — the length of the text
with leading and trailing whitespace removed — used by the spec's
issuance condition (the source itself never trims). -/
def trimmedLength (s : String) : Nat :=
  ((s.data.dropWhile Char.isWhitespace).reverse.dropWhile Char.isWhitespace).length

/-- Modelled from the spec: the spec's condition for issuing a search on
an input change — `trimmedLength(text) >= minLength` and the key is not a
navigation key (tab/escape/arrows/enter/meta). -/
def specIssuesSearch (opts : Options) (value : String) (e : KeyEvent) : Bool :=
  (opts.minLength ≤ trimmedLength value) && !(e.metaKey || navKeyCodes.contains e.keyCode)

/-- Modelled from the spec: the trailing-edge debounce combinator
(`lodash.debounce`, an external dependency wired at src/lib/index.js:167)
over a timestamped call sequence — a call's handler invocation fires,
with that call's argument, only when no further call arrives within the
next `d` milliseconds; otherwise the timer restarts and the earlier call
never fires. -/
def debouncedDispatches {α : Type} (d : Nat) : List (Nat × α) → List α
  | [] => []
  | [e] => [e.2]
  | e1 :: e2 :: rest =>
      (if e1.1 + d ≤ e2.1 then [e1.2] else []) ++ debouncedDispatches d (e2 :: rest)

/-- All consecutive events of the sequence fall within one debounce
window: each follows its predecessor after strictly less than `d`
milliseconds. -/
def withinWindow {α : Type} (d : Nat) (evs : List (Nat × α)) : Prop :=
  List.Chain' (fun a b => b.1 < a.1 + d) evs

/-- A keystroke as the debounced `_onKeyDown` handler will observe it when
it fires: the key event and the input's value at that moment. -/
structure KeyInput where
  event : KeyEvent
  value : String
deriving DecidableEq, Repr

/-- The search inputs actually dispatched by the debounced keydown
listener for a timestamped keystroke sequence. -/
def debouncedSearchQueries (opts : Options) (d : Nat)
    (evs : List (Nat × KeyInput)) : List String :=
  (debouncedDispatches d evs).filterMap fun ki => onKeyDownSearch opts ki.value ki.event

/-- True of actions that mutate controller or suggestion-store state
(including visible indicators, rendered messages and the marker); event
emissions, network requests and map/input commands do not. -/
def mutatesState : Action → Bool
  | Action.setLoadingDisplay _ => true
  | Action.setClearDisplay _ => true
  | Action.setFresh _ => true
  | Action.setInputString _ => true
  | Action.setInputValue _ => true
  | Action.setSelected _ => true
  | Action.typeaheadUpdate _ => true
  | Action.typeaheadClear => true
  | Action.renderMsg _ => true
  | Action.setLastSelected _ => true
  | Action.removeMarker => true
  | Action.placeMarker _ _ => true
  | _ => false

/-- Is the action an event emission? -/
def isEmit : Action → Bool
  | Action.emit _ => true
  | _ => false

/-- Once a handler has emitted an event, no later action of the handler
mutates state. -/
def cleanAfterEmit : List Action → Bool
  | [] => true
  | a :: rest =>
      if isEmit a then rest.all fun b => !mutatesState b
      else cleanAfterEmit rest

/-- A run of the widget: the controller state, the queries of the search
requests issued and not yet answered (in issue order), and the events
emitted so far. -/
structure World where
  state : GeocoderState
  pending : List String
  events : List Event
deriving DecidableEq, Repr

/-- Externally visible steps of a run: `_geocode` being invoked, or accepting
the response of the idx-th outstanding search request.  The source attaches
a `then`/`catch` continuation to every request it sends and never checks,
when a response arrives, whether a newer request has been issued since, so
the continuation runs for stale requests exactly as for the latest one. -/
inductive SysStep where
  | geocode (q : String)
  | searchResolves (idx : Nat) (res : SearchResponse)
  | searchRejects (idx : Nat) (err : Option ErrObj)
deriving DecidableEq, Repr

/-- Apply one handler's action list to a world, recording emissions. -/
def applyToWorld (w : World) (acts : List Action) : World :=
  { w with state := applyActions w.state acts, events := w.events ++ emitsOf acts }

/-- The step semantics of the run. -/
def stepWorld (opts : Options) (hasMap : Bool) (w : World) : SysStep → World
  | SysStep.geocode q =>
      let w1 := applyToWorld w (geocodeStartActions opts hasMap q)
      { w1 with pending := w.pending ++ [q] }
  | SysStep.searchResolves idx res =>
      if idx < w.pending.length then
        let w1 := applyToWorld w (searchSuccessActions w.state.fresh res)
        { w1 with pending := w.pending.eraseIdx idx }
      else w
  | SysStep.searchRejects idx err =>
      if idx < w.pending.length then
        let w1 := applyToWorld w (searchFailureActions err)
        { w1 with pending := w.pending.eraseIdx idx }
      else w

/-- Run a sequence of steps. -/
def runSteps (opts : Options) (hasMap : Bool) (w : World) (steps : List SysStep) : World :=
  steps.foldl (stepWorld opts hasMap) w

/-- The default option bag. -/
def opts0 : Options := {}

/-- The controller state right after construction. -/
def s0 : GeocoderState :=
  { inputString := ""
    inputValue := ""
    fresh := true
    lastSelected := none
    typeahead := { data := [], selected := none }
    loadingDisplayed := false
    clearDisplayed := false
    renderedMessage := none
    hasMarker := false }

/-- A concrete candidate. -/
def p1 : Prediction := { place_id := "p1", description := "Hanoi" }

/-- A concrete non-empty search response. -/
def res1 : SearchResponse := { predictions := [p1] }

/-- A concrete place detail. -/
def d1 : PlaceDetail := { lat := 21, lng := 1058 / 10 }

/-- The initial world. -/
def w0 : World := { state := s0, pending := [], events := [] }

/-- A state in which the typeahead has `p1` selected and no selection has
yet been confirmed. -/
def sSel : GeocoderState :=
  { s0 with typeahead := { data := [p1], selected := some p1 } }

/-- A concrete genuine (non-cancellation) error. -/
def errGenuine : Option ErrObj := some { status := some 500 }

/-- A concrete letter-key event (keyCode 65, no meta). -/
def keyA : KeyEvent := { keyCode := 65, metaKey := false }

/-- A world with two outstanding search requests. -/
def wTwoPending : World := { state := s0, pending := ["a", "ab"], events := [] }

/-- The earlier keystroke of the concrete witness burst. -/
def key1 : KeyInput := { event := keyA, value := "Han" }

/-- The last keystroke of the concrete witness burst. -/
def key2 : KeyInput := { event := keyA, value := "Hano" }

/-- A two-keystroke burst 100 ms apart, inside the 200 ms window. -/
def evs7 : List (Nat × KeyInput) := [(0, key1), (100, key2)]

/-- C4: a search failure whose error carries status exactly 0 is a silent
no-op — state untouched, nothing emitted; every other search failure
renders the error message and emits a `results` event with an empty
prediction list followed by an `error` event. -/
theorem C4_search_failure_policy (err : Option ErrObj) (s : GeocoderState) :
    (errIsCancellation err = true →
      applyActions s (searchFailureActions err) = s ∧
      emitsOf (searchFailureActions err) = []) ∧
    (errIsCancellation err = false →
      (applyActions s (searchFailureActions err)).renderedMessage = some Message.errorBanner ∧
      emitsOf (searchFailureActions err) =
        [Event.results { predictions := [] }, Event.errorEvt err]) := by
  constructor
  · intro h
    simp [searchFailureActions, h, applyActions, emitsOf]
  · intro h
    simp [searchFailureActions, h, renderMessageActions, applyActions, applyAction, emitsOf]

/-- Witness for C4 at a concrete cancellation and a concrete genuine
error. -/
theorem C4_search_failure_policy_witness :
    (applyActions s0 (searchFailureActions (some { status := some 0 })) = s0 ∧
      emitsOf (searchFailureActions (some { status := some 0 })) = []) ∧
    ((applyActions s0 (searchFailureActions errGenuine)).renderedMessage =
        some Message.errorBanner ∧
      emitsOf (searchFailureActions errGenuine) =
        [Event.results { predictions := [] }, Event.errorEvt errGenuine]) :=
  ⟨(C4_search_failure_policy (some { status := some 0 }) s0).1 (by decide),
   (C4_search_failure_policy errGenuine s0).2 (by decide)⟩

/-- C5: a detail failure emits the `error` event and nothing else, and
leaves the state (in particular the rendered message) untouched, while a
genuine search failure renders the error banner and emits both `results`
(empty) and `error`. -/
theorem C5_detail_failure_emits_error_only (err : Option ErrObj) (s : GeocoderState) :
    emitsOf (detailFailureActions err) = [Event.errorEvt err] ∧
    applyActions s (detailFailureActions err) = s ∧
    (errIsCancellation err = false →
      (applyActions s (searchFailureActions err)).renderedMessage = some Message.errorBanner ∧
      emitsOf (searchFailureActions err) =
        [Event.results { predictions := [] }, Event.errorEvt err]) := by
  refine ⟨rfl, rfl, fun h => ?_⟩
  simp [searchFailureActions, h, renderMessageActions, applyActions, applyAction, emitsOf]

/-- Witness for C5 at a concrete genuine error. -/
theorem C5_detail_failure_emits_error_only_witness :
    emitsOf (detailFailureActions errGenuine) = [Event.errorEvt errGenuine] ∧
    applyActions s0 (detailFailureActions errGenuine) = s0 ∧
    ((applyActions s0 (searchFailureActions errGenuine)).renderedMessage =
        some Message.errorBanner ∧
      emitsOf (searchFailureActions errGenuine) =
        [Event.results { predictions := [] }, Event.errorEvt errGenuine]) :=
  ⟨(C5_detail_failure_emits_error_only errGenuine s0).1,
   (C5_detail_failure_emits_error_only errGenuine s0).2.1,
   (C5_detail_failure_emits_error_only errGenuine s0).2.2 (by decide)⟩

/-- C9: a search success with zero predictions clears the active
selection, renders the no-results message (not the error banner), and
emits a single `results` event carrying the empty response. -/
theorem C9_empty_results (s : GeocoderState) (res : SearchResponse)
    (h : res.predictions = []) :
    (applyActions s (searchSuccessActions s.fresh res)).typeahead.selected = none ∧
    (applyActions s (searchSuccessActions s.fresh res)).renderedMessage =
      some Message.noResults ∧
    (applyActions s (searchSuccessActions s.fresh res)).renderedMessage ≠
      some Message.errorBanner ∧
    emitsOf (searchSuccessActions s.fresh res) = [Event.results res] := by
  obtain ⟨preds⟩ := res
  simp only [SearchResponse.mk.injEq] at h
  subst h
  cases hf : s.fresh <;>
    simp [searchSuccessActions, renderMessageActions, applyActions, applyAction, emitsOf]

/-- Witness for C9 at the empty response and the initial state. -/
theorem C9_empty_results_witness :
    (applyActions s0 (searchSuccessActions s0.fresh { predictions := [] })).typeahead.selected =
      none ∧
    (applyActions s0 (searchSuccessActions s0.fresh { predictions := [] })).renderedMessage =
      some Message.noResults ∧
    (applyActions s0 (searchSuccessActions s0.fresh { predictions := [] })).renderedMessage ≠
      some Message.errorBanner ∧
    emitsOf (searchSuccessActions s0.fresh { predictions := [] }) =
      [Event.results { predictions := [] }] :=
  C9_empty_results s0 { predictions := [] } rfl

/-- C1 fails on the code: after a second search ("ab") supersedes the
first ("a"), the arrival of the first (stale) response still changes the
observable state and still emits events — the claimed silent discard does
not happen. -/
theorem C1_stale_response_counterexample :
    ¬ ((runSteps opts0 true w0
          [SysStep.geocode "a", SysStep.geocode "ab",
           SysStep.searchResolves 0 res1]).state =
        (runSteps opts0 true w0 [SysStep.geocode "a", SysStep.geocode "ab"]).state ∧
       (runSteps opts0 true w0
          [SysStep.geocode "a", SysStep.geocode "ab",
           SysStep.searchResolves 0 res1]).events =
        (runSteps opts0 true w0 [SysStep.geocode "a", SysStep.geocode "ab"]).events) := by
  decide

/-- C1 amended: the code performs no staleness suppression at all — a
search response is processed identically whichever outstanding request
(stale or latest) it answers, so the observable semantics is
last-response-arrival-wins, not last-request-wins. -/
theorem C1_response_handling_ignores_staleness (opts : Options) (hasMap : Bool)
    (w : World) (i j : Nat) (res : SearchResponse)
    (hi : i < w.pending.length) (hj : j < w.pending.length) :
    (stepWorld opts hasMap w (SysStep.searchResolves i res)).state =
      (stepWorld opts hasMap w (SysStep.searchResolves j res)).state ∧
    (stepWorld opts hasMap w (SysStep.searchResolves i res)).events =
      (stepWorld opts hasMap w (SysStep.searchResolves j res)).events := by
  simp [stepWorld, hi, hj]

/-- Witness for the amended C1: with two outstanding requests, answering
the stale one and answering the latest one produce the same state and
events. -/
theorem C1_response_handling_ignores_staleness_witness :
    (stepWorld opts0 true wTwoPending (SysStep.searchResolves 0 res1)).state =
      (stepWorld opts0 true wTwoPending (SysStep.searchResolves 1 res1)).state ∧
    (stepWorld opts0 true wTwoPending (SysStep.searchResolves 0 res1)).events =
      (stepWorld opts0 true wTwoPending (SysStep.searchResolves 1 res1)).events :=
  C1_response_handling_ignores_staleness opts0 true wTwoPending 0 1 res1
    (by decide) (by decide)

/-- C2: the code contradicts the claim (and its own `options.flyTo`
documentation) — with fly-to disabled, selecting a fresh candidate
short-circuits `_onChange` entirely: no place-detail request is issued
and no `result` event can be emitted, instead of merely skipping the
recenter. -/
theorem C2_flyto_disabled_skips_whole_selection :
    onChangeActions { opts0 with flyTo := FlyToOption.off } sSel = [] ∧
    requestsOf (onChangeActions { opts0 with flyTo := FlyToOption.off } sSel) = [] ∧
    emitsOf (onChangeActions { opts0 with flyTo := FlyToOption.off } sSel) = [] ∧
    onChangeActions opts0 sSel = [Action.detailRequest "p1"] := by
  refine ⟨?_, ?_, ?_, ?_⟩ <;> rfl

/-- C3 fails on the code: in the non-empty search success the suggestion
store is updated after the `results` emission, and in clear the fresh
flag is set after the `clear` emission. -/
theorem C3_emit_last_counterexample :
    cleanAfterEmit (searchSuccessActions false res1) = false ∧
    cleanAfterEmit (clearActions opts0 s0) = false := by
  decide

/-- C3 amended: the event emission is the last action for search
failures, empty-result search successes, detail successes and detail
failures; but in a non-empty search success the suggestion-list update
follows the `results` emit, and in clear the fresh flag is set after the
`clear` emit. -/
theorem C3_emit_last_amended (err : Option ErrObj) (fresh : Bool)
    (res : SearchResponse) (opts : Options) (hm hg : Bool) (sel : Prediction)
    (d : PlaceDetail) (s : GeocoderState) :
    (errIsCancellation err = false → cleanAfterEmit (searchFailureActions err) = true) ∧
    (res.predictions = [] → cleanAfterEmit (searchSuccessActions fresh res) = true) ∧
    cleanAfterEmit (detailSuccessActions opts hm hg sel d) = true ∧
    cleanAfterEmit (detailFailureActions err) = true ∧
    (res.predictions ≠ [] → cleanAfterEmit (searchSuccessActions fresh res) = false) ∧
    cleanAfterEmit (clearActions opts s) = false := by
  obtain ⟨preds⟩ := res
  refine ⟨fun h => ?_, fun h => ?_, ?_, rfl, fun h => ?_, ?_⟩
  · simp [searchFailureActions, h, renderMessageActions, cleanAfterEmit, isEmit, mutatesState]
  · simp only [SearchResponse.mk.injEq] at h
    subst h
    cases fresh <;> rfl
  · cases hm <;> cases hmg : (opts.marker && hg) <;>
      simp [detailSuccessActions, handleMarkerActions, hmg, cleanAfterEmit, isEmit, mutatesState]
  · simp only [ne_eq, SearchResponse.mk.injEq] at h
    cases hp : preds with
    | nil => exact absurd hp h
    | cons a l =>
      cases fresh <;>
        simp [searchSuccessActions, hp, cleanAfterEmit, isEmit, mutatesState]
  · rfl

/-- Witness for the amended C3 at concrete inputs. -/
theorem C3_emit_last_amended_witness :
    cleanAfterEmit (searchFailureActions errGenuine) = true ∧
    cleanAfterEmit (searchSuccessActions true { predictions := [] }) = true ∧
    cleanAfterEmit (detailSuccessActions opts0 true true p1 d1) = true ∧
    cleanAfterEmit (detailFailureActions errGenuine) = true ∧
    cleanAfterEmit (searchSuccessActions true res1) = false ∧
    cleanAfterEmit (clearActions opts0 s0) = false := by
  obtain ⟨h1, h2, h3, h4, h5, h6⟩ :=
    C3_emit_last_amended errGenuine true res1 opts0 true true p1 d1 s0
  exact ⟨h1 (by decide),
    (C3_emit_last_amended errGenuine true { predictions := [] } opts0 true true p1 d1 s0).2.1 rfl,
    h3, h4, h5 (by decide), h6⟩

/-- C6 fails on the code: with the same candidate selected, a selection
event, a failed detail request, and a second selection event of the same
candidate issue two detail requests — the second selection does perform a
network call, because the guard compares against the last confirmed (i.e.
successfully fetched) selection only. -/
theorem C6_duplicate_selection_counterexample :
    requestsOf (onChangeActions opts0 sSel) = [Action.detailRequest "p1"] ∧
    requestsOf (onChangeActions opts0
        (applyActions sSel (detailFailureActions errGenuine))) =
      [Action.detailRequest "p1"] := by
  decide

/-- C6 amended: two consecutive selection events of the same candidate
issue at most one detail request provided the first selection's detail
request succeeded before the second event; the first selection issues
exactly one request and the second then performs no network call. -/
theorem C6_duplicate_selection_guard (opts : Options) (hm hg : Bool)
    (s : GeocoderState) (p : Prediction) (d : PlaceDetail)
    (hsel : s.typeahead.selected = some p)
    (hnew : s.lastSelected ≠ some (stringify p))
    (hfly : opts.flyTo ≠ FlyToOption.off) :
    onChangeActions opts s = [Action.detailRequest p.place_id] ∧
    onChangeActions opts (applyActions s (detailSuccessActions opts hm hg p d)) = [] := by
  constructor
  · simp only [onChangeActions, hsel]
    rw [if_neg (Ne.symm hnew), if_neg hfly]
  · cases hm <;> cases hmg : (opts.marker && hg) <;>
      simp [detailSuccessActions, handleMarkerActions, hmg, applyActions, applyAction,
        onChangeActions, hsel]

/-- Witness for the amended C6 at concrete inputs. -/
theorem C6_duplicate_selection_guard_witness :
    onChangeActions opts0 sSel = [Action.detailRequest p1.place_id] ∧
    onChangeActions opts0 (applyActions sSel (detailSuccessActions opts0 true true p1 d1)) =
      [] :=
  C6_duplicate_selection_guard opts0 true true sSel p1 d1 rfl (by decide) (by decide)

/-- C10: a failed detail request leaves the whole state — in particular
`lastSelected` — unchanged, so a subsequent selection event for the same
(still unconfirmed) candidate issues a fresh detail request. -/
theorem C10_detail_failure_keeps_guard_open (opts : Options) (s : GeocoderState)
    (p : Prediction) (err : Option ErrObj)
    (hsel : s.typeahead.selected = some p)
    (hnew : s.lastSelected ≠ some (stringify p))
    (hfly : opts.flyTo ≠ FlyToOption.off) :
    (applyActions s (detailFailureActions err)).lastSelected = s.lastSelected ∧
    applyActions s (detailFailureActions err) = s ∧
    onChangeActions opts (applyActions s (detailFailureActions err)) =
      [Action.detailRequest p.place_id] := by
  refine ⟨rfl, rfl, ?_⟩
  show onChangeActions opts s = _
  simp only [onChangeActions, hsel]
  rw [if_neg (Ne.symm hnew), if_neg hfly]

/-- Witness for C10 at concrete inputs. -/
theorem C10_detail_failure_keeps_guard_open_witness :
    (applyActions sSel (detailFailureActions errGenuine)).lastSelected = sSel.lastSelected ∧
    applyActions sSel (detailFailureActions errGenuine) = sSel ∧
    onChangeActions opts0 (applyActions sSel (detailFailureActions errGenuine)) =
      [Action.detailRequest p1.place_id] :=
  C10_detail_failure_keeps_guard_open opts0 sSel p1 errGenuine rfl (by decide) (by decide)

/-- C8 fails on the code: for the input value " a" (length 2, trimmed
length 1) with `minLength = 2` and an ordinary letter key, the code
issues a search although the spec's trimmed-length condition says none
may be issued. -/
theorem C8_trim_counterexample :
    (onKeyDownSearch opts0 " a" keyA).isSome = true ∧
    specIssuesSearch opts0 " a" keyA = false := by
  decide

/-- C8 amended: provided `minLength ≥ 1`, a keydown dispatches a search
exactly when the raw (untrimmed) value length is at least `minLength` and
the key is neither a meta combination nor a navigation key — the code
never trims before measuring. -/
theorem C8_keydown_issuance (opts : Options) (value : String) (e : KeyEvent)
    (hmin : 1 ≤ opts.minLength) :
    (onKeyDownSearch opts value e).isSome = true ↔
      (opts.minLength ≤ value.length ∧ e.metaKey = false ∧
       navKeyCodes.contains e.keyCode = false) := by
  obtain ⟨kc, mk⟩ := e
  simp only [onKeyDownSearch]
  by_cases h1 : (kc == 27 && opts.clearAndBlurOnEsc) = true
  · rw [if_pos h1]
    obtain ⟨hk, -⟩ := Bool.and_eq_true_iff.mp h1
    have hk27 : kc = 27 := by simpa using hk
    subst hk27
    simp [navKeyCodes]
  · rw [if_neg h1]
    by_cases h2 : (value == "") = true
    · rw [if_pos h2]
      have hv : value = "" := eq_of_beq h2
      subst hv
      simp only [Option.isSome_none, Bool.false_eq_true, false_iff, not_and]
      intro hlen
      simp only [String.length_empty] at hlen
      omega
    · rw [if_neg h2]
      by_cases h3 : (mk || navKeyCodes.contains kc) = true
      · rw [if_pos h3]
        simp only [Option.isSome_none, Bool.false_eq_true, false_iff, not_and]
        intro _ hmk
        rcases Bool.or_eq_true_iff.mp h3 with h | h
        · exact absurd h (by simp [hmk])
        · intro hnav
          rw [h] at hnav
          cases hnav
      · rw [if_neg h3]
        have hmk : mk = false := by
          cases mk
          · rfl
          · exact absurd (by simp) h3
        have hnav : navKeyCodes.contains kc = false := by
          cases hc : navKeyCodes.contains kc
          · rfl
          · exact absurd (by rw [hc, Bool.or_true]) h3
        have hnav' : kc ∉ navKeyCodes := by simpa using hnav
        by_cases h4 : opts.minLength ≤ value.length
        · rw [if_pos h4]
          simp [h4, hmk, hnav, hnav']
        · rw [if_neg h4]
          simp [h4]

/-- Witness for the amended C8 at a concrete input that does issue a
search. -/
theorem C8_keydown_issuance_witness :
    (onKeyDownSearch opts0 "ab" keyA).isSome = true ↔
      (opts0.minLength ≤ "ab".length ∧ keyA.metaKey = false ∧
       navKeyCodes.contains keyA.keyCode = false) :=
  C8_keydown_issuance opts0 "ab" keyA (by decide)

/-- Within one debounce window every call but the last merely restarts
the timer; the dispatch list collapses to the last call's argument. -/
theorem debouncedDispatches_of_withinWindow {α : Type} (d : Nat)
    (evs : List (Nat × α)) (h : withinWindow d evs) :
    debouncedDispatches d evs = (evs.getLast?.map Prod.snd).toList := by
  induction evs with
  | nil => rfl
  | cons e1 rest ih =>
    cases rest with
    | nil => rfl
    | cons e2 rest2 =>
      obtain ⟨h12, hrest⟩ := List.chain'_cons.mp h
      have hne : ¬ e1.1 + d ≤ e2.1 := by omega
      simp only [debouncedDispatches, if_neg hne, List.nil_append,
        List.getLast?_cons_cons]
      exact ih hrest

/-- C7: when all keystrokes of a sequence fall within the debounce
window, the debounced keydown listener fires once with the last
keystroke's state, so only the last keystroke's query can be dispatched
as a search request and intermediate keystrokes dispatch nothing. -/
theorem C7_debounce_last_only (opts : Options) (d : Nat)
    (evs : List (Nat × KeyInput)) (tk : Nat × KeyInput)
    (hwin : withinWindow d evs) (hlast : evs.getLast? = some tk) :
    debouncedSearchQueries opts d evs =
      (onKeyDownSearch opts tk.2.value tk.2.event).toList := by
  unfold debouncedSearchQueries
  rw [debouncedDispatches_of_withinWindow d evs hwin, hlast]
  cases hk : onKeyDownSearch opts tk.2.value tk.2.event <;> simp [hk]

/-- Witness for C7 on the concrete burst. -/
theorem C7_debounce_last_only_witness :
    debouncedSearchQueries opts0 200 evs7 =
      (onKeyDownSearch opts0 key2.value key2.event).toList :=
  C7_debounce_last_only opts0 200 evs7 (100, key2)
    (List.chain'_cons.mpr ⟨by decide, List.chain'_singleton _⟩)
    (by decide)

end GoongGeocoder
